import Mathlib

/-!
Shallow embedding of `src/iframe-integration.ts` (supersplat iframe bridge).

The file under verification is event-driven glue code: it talks to a host
event bus (`events.invoke(...)`), to the browser (canvas, `postMessage`)
and to a PLY serializer.  We embed it by making every external effect
explicit:

* an `Env` record supplies the host's response to each external call
  (`camera.getPose`, `camera.fov`, `render.offscreen`, `scene.splats`,
  `serializePlyCompressed`, the in-memory file sink, the canvas 2d context
  and PNG encoder, and the per-file `import` outcome).  An `Except.error`
  value models a thrown JS exception, `Option.none` models a null-ish
  JS value;
* each translated function returns, besides its result, the list of
  host-API calls it performed (`ApiCall`) in execution order, and the
  handlers additionally return the list of messages posted to the parent
  window (`Message`) in order;
* the Submit/Cancel button DOM state is a `Controls` record threaded
  through the Submit click handler.

JavaScript strings are Lean `String`s; binary buffers are `List Nat`
byte lists; a JS value that may be `null`/`undefined` is an `Option`.
-/

/-- A splat item as seen by this file: only `splats[0].filename` is read.
`none` models a `null`/`undefined` filename; `some ""` models the empty
string (also falsy in JS). -/
structure Splat where
  filename : Option String
deriving DecidableEq, Repr

/-- JS `a || d` for a possibly-null string `a`: the default is taken when
`a` is `null`/`undefined` or the empty string (falsy). -/
def jsOrString (a : Option String) (d : String) : String :=
  match a with
  | none => d
  | some s => if s = "" then d else s

/-- The camera pose returned by `events.invoke('camera.getPose')`:
position and target vectors (components as integers, the numeric values
are opaque to this file). -/
structure Pose where
  position : List Int
  target : List Int
deriving DecidableEq, Repr

/-- The pose record built by `getCameraPose`: `{position, target, fov}`. -/
structure CameraPose where
  position : List Int
  target : List Int
  fov : Int
deriving DecidableEq, Repr

/-- A file descriptor from a `supersplat:import` message. -/
structure FileData where
  filename : String
deriving DecidableEq, Repr

/-- One host-API call, recorded in execution order. -/
inductive ApiCall where
  | cameraGetPose
  | cameraFov
  | renderOffscreen (width height : Nat)
  | sceneSplats
  | serializePlyCompressed
  | importFile (file : FileData)
deriving DecidableEq, Repr

/-- Payload of a `splat-editor-submit` message:
`{thumbnail, plyFile, filename, cameraPose}`. -/
structure SubmitPayload where
  thumbnail : Option (List Nat)
  plyFile : List Nat
  filename : String
  cameraPose : Option CameraPose
deriving DecidableEq, Repr

/-- A message posted to the parent window via `window.parent.postMessage`. -/
inductive Message where
  | submit (data : SubmitPayload)
  | editorError (error : String)
  | importError (error : String)
  | editorCancel
  | editorReady
  | supersplatReady
deriving DecidableEq, Repr

/-- The environment: responses of all external collaborators.
`Except.error e` models a thrown exception with message `e`. -/
structure Env where
  /-- Result of `events.invoke('camera.getPose')`: throw, null, or a pose. -/
  getPoseResult : Except String (Option Pose)
  /-- Result of `events.invoke('camera.fov')`: throw or a value. -/
  cameraFovResult : Except String Int
  /-- Result of `await scene.events.invoke('render.offscreen', 512, 512)`:
  throw, null, or a pixel buffer. -/
  renderOffscreenResult : Except String (Option (List Nat))
  /-- Whether `canvas.getContext('2d')` returns a context (vs null). -/
  ctx2dAvailable : Bool
  /-- The browser's `canvas.toBlob` PNG encoding of the pixel buffer;
  `none` models a null blob handed to the callback. -/
  pngEncode : List Nat → Option (List Nat)
  /-- Result of `events.invoke('scene.splats')`: throw, null, or the list. -/
  sceneSplatsResult : Except String (Option (List Splat))
  /-- Outcome of `await serializePlyCompressed(splats, settings, memFs)`. -/
  serializeResult : Except String Unit
  /-- Value of `memFs.results.get('output.compressed.ply')` after serialization. -/
  memFsOutput : Option (List Nat)
  /-- Outcome of `await events.invoke('import', [fileData])` per file. -/
  importResult : FileData → Except String Unit

/-- View of the window seen by `isInIframe`: `window.self` as an opaque browsing
context id, and the access to `window.top`, which may throw a cross-origin
security exception (`Except.error`). -/
structure WindowEnv where
  selfRef : Nat
  topAccess : Except Unit Nat

/-- The detector `isInIframe`: returns `window.self !== window.top`, and `true` when
reading `window.top` throws (cross-origin). Pure: no side effects. -/
def isInIframe (w : WindowEnv) : Bool :=
  match w.topAccess with
  | .error _ => true
  | .ok top => decide (w.selfRef ≠ top)

/-- Translation of `getCameraPose`: invokes `camera.getPose`; on throw or null returns
null; otherwise also invokes `camera.fov` (inside the same try, so a
throw there also yields null) and builds the pose record. -/
def getCameraPose (env : Env) : Option CameraPose × List ApiCall :=
  match env.getPoseResult with
  | .error _ => (none, [.cameraGetPose])
  | .ok none => (none, [.cameraGetPose])
  | .ok (some pose) =>
    match env.cameraFovResult with
    | .error _ => (none, [.cameraGetPose, .cameraFov])
    | .ok fov => (some ⟨pose.position, pose.target, fov⟩, [.cameraGetPose, .cameraFov])

/-- Translation of `captureThumbnail`: invokes `render.offscreen` at 512×512; on throw or
null pixels returns null; with a null 2d context resolves null; otherwise
returns the browser's PNG blob for the pixels (possibly null). -/
def captureThumbnail (env : Env) : Option (List Nat) × List ApiCall :=
  match env.renderOffscreenResult with
  | .error _ => (none, [.renderOffscreen 512 512])
  | .ok none => (none, [.renderOffscreen 512 512])
  | .ok (some pixels) =>
    if env.ctx2dAvailable then
      (env.pngEncode pixels, [.renderOffscreen 512 512])
    else
      (none, [.renderOffscreen 512 512])

/-- The regex test `/\.ply$/i`: the string ends in `.`, then `p`/`P`,
`l`/`L`, `y`/`Y`. -/
def matchesPlySuffix : List Char → Bool
  | [d, p, l, y] =>
    d = '.' && (p = 'p' || p = 'P') && (l = 'l' || l = 'L') && (y = 'y' || y = 'Y')
  | _ => false

/-- Whether `/\.ply$/i` matches `s` (case-insensitive `.ply` at the end). -/
def endsWithPlyCI (s : String) : Bool :=
  decide (4 ≤ s.toList.length) && matchesPlySuffix (s.toList.drop (s.toList.length - 4))

/-- JS `filename.includes('.compressed.ply')`: substring containment
(case-sensitive). -/
def containsCompressedPly (s : String) : Bool :=
  decide (".compressed.ply".toList <:+: s.toList)

/-- The filename normalization of `exportPly`:
`if (!filename.includes('.compressed.ply')) filename = filename.replace(/\.ply$/i, '.compressed.ply')`.
When the regex does not match, `String.prototype.replace` returns the
string unchanged. -/
def deriveFilename (filename : String) : String :=
  if containsCompressedPly filename then filename
  else if endsWithPlyCI filename then filename.dropRight 4 ++ ".compressed.ply"
  else filename

/-- Result of a successful `exportPly`: `{filename, data}`. -/
structure PlyResult where
  filename : String
  data : List Nat
deriving DecidableEq, Repr

/-- Translation of `exportPly`: invokes `scene.splats`; fails (null) on throw, null list,
or empty list; then serializes to the in-memory file system (fails on
throw or on a missing `output.compressed.ply` entry); finally derives the
filename from the first splat (default `'edited.ply'`) and normalizes the
extension. -/
def exportPly (env : Env) : Option PlyResult × List ApiCall :=
  match env.sceneSplatsResult with
  | .error _ => (none, [.sceneSplats])
  | .ok none => (none, [.sceneSplats])
  | .ok (some splats) =>
    match splats with
    | [] => (none, [.sceneSplats])
    | first :: _ =>
      match env.serializeResult with
      | .error _ => (none, [.sceneSplats, .serializePlyCompressed])
      | .ok _ =>
        match env.memFsOutput with
        | none => (none, [.sceneSplats, .serializePlyCompressed])
        | some bytes =>
          (some ⟨deriveFilename (jsOrString first.filename "edited.ply"), bytes⟩,
           [.sceneSplats, .serializePlyCompressed])

/-- Options of `performExport`; both default to `true` as in
`const { includeThumbnail = true, includeCameraPose = true } = options`. -/
structure ExportOptions where
  includeThumbnail : Bool := true
  includeCameraPose : Bool := true
deriving DecidableEq, Repr

deriving instance DecidableEq for Except

/-- Outcome of one `performExport` call: the promise result (`.error e`
models a thrown `Error(e)`), the messages it posted, and the host-API
calls it made, in order. -/
structure ExportOutcome where
  result : Except String Unit
  messages : List Message
  calls : List ApiCall
deriving DecidableEq, Repr

/-- The camera-pose step of `performExport`: skipped when not requested;
otherwise throws `'Failed to capture camera pose'` when `getCameraPose`
returns null. -/
def poseStep (env : Env) (includeCameraPose : Bool) :
    Except String (Option CameraPose) × List ApiCall :=
  if includeCameraPose then
    match getCameraPose env with
    | (none, calls) => (.error "Failed to capture camera pose", calls)
    | (some p, calls) => (.ok (some p), calls)
  else
    (.ok none, [])

/-- The thumbnail step of `performExport`: skipped when not requested;
otherwise throws `'Failed to capture thumbnail'` when `captureThumbnail`
returns null. -/
def thumbStep (env : Env) (includeThumbnail : Bool) :
    Except String (Option (List Nat)) × List ApiCall :=
  if includeThumbnail then
    match captureThumbnail env with
    | (none, calls) => (.error "Failed to capture thumbnail", calls)
    | (some t, calls) => (.ok (some t), calls)
  else
    (.ok none, [])

/-- Translation of `performExport(options)`: pose step, then thumbnail step, then the
(always required) PLY export — strictly in this order; the first failure
aborts with a thrown error and nothing is posted; on success exactly one
`splat-editor-submit` message carrying all pieces is posted. -/
def performExport (env : Env) (options : ExportOptions) : ExportOutcome :=
  match poseStep env options.includeCameraPose with
  | (.error e, poseCalls) => ⟨.error e, [], poseCalls⟩
  | (.ok cameraPose, poseCalls) =>
    match thumbStep env options.includeThumbnail with
    | (.error e, thumbCalls) => ⟨.error e, [], poseCalls ++ thumbCalls⟩
    | (.ok thumbnail, thumbCalls) =>
      match exportPly env with
      | (none, plyCalls) =>
        ⟨.error "Failed to export PLY", [], poseCalls ++ thumbCalls ++ plyCalls⟩
      | (some plyData, plyCalls) =>
        ⟨.ok (),
         [.submit ⟨thumbnail, plyData.data, plyData.filename, cameraPose⟩],
         poseCalls ++ thumbCalls ++ plyCalls⟩

/-- DOM state of one button: its `disabled` flag and `textContent`. -/
structure ButtonState where
  disabled : Bool
  label : String
deriving DecidableEq, Repr

/-- The two iframe control buttons. -/
structure Controls where
  submit : ButtonState
  cancel : ButtonState
deriving DecidableEq, Repr

/-- The buttons as created by `createIframeControls`: enabled, labelled
`'Submit'` and `'Cancel'`. -/
def initialControls : Controls :=
  ⟨⟨false, "Submit"⟩, ⟨false, "Cancel"⟩⟩

/-- The mutations at the top of the Submit click handler:
`submit.disabled = true; cancel.disabled = true;
submit.textContent = 'Processing...'`. -/
def submitEntry (c : Controls) : Controls :=
  ⟨⟨true, "Processing..."⟩, ⟨true, c.cancel.label⟩⟩

/-- Outcome of a handler run: final button state, messages posted to the
parent (in order), and host-API calls made. -/
structure HandlerOutcome where
  controls : Controls
  messages : List Message
  calls : List ApiCall
deriving DecidableEq, Repr

/-- The Submit button click handler: disables both buttons and relabels
submit, runs `performExport({includeThumbnail: true, includeCameraPose:
true})`; on a thrown error posts one `splat-editor-error` message and
restores both buttons and the `'Submit'` label; on success the catch
block never runs and the buttons stay as set on entry. -/
def submitClick (env : Env) (c : Controls) : HandlerOutcome :=
  let entry := submitEntry c
  let out := performExport env ⟨true, true⟩
  match out.result with
  | .ok _ => ⟨entry, out.messages, out.calls⟩
  | .error e =>
    ⟨⟨⟨false, "Submit"⟩, ⟨false, entry.cancel.label⟩⟩,
     out.messages ++ [.editorError e], out.calls⟩

/-- The body of the `supersplat:import` loop: for each file in order,
invoke `import`; a failure posts one `supersplat:import:error` message
and the loop continues with the remaining files. -/
def importFiles (env : Env) : List FileData → List Message × List ApiCall
  | [] => ([], [])
  | f :: rest =>
    let step : List Message :=
      match env.importResult f with
      | .ok _ => []
      | .error e => [.importError e]
    let (ms, cs) := importFiles env rest
    (step ++ ms, .importFile f :: cs)

/-- An inbound `postMessage` event relevant to the listener: the
`supersplat:import` branch (with its possibly-absent `files` field), the
`supersplat:auto-export` branch, or anything else. -/
inductive InboundMessage where
  | importMsg (files : Option (List FileData))
  | autoExport
  | other

/-- The `supersplat:import` branch: `if (files && files.length > 0)`
guards the loop; a null/absent or empty list does nothing. -/
def importMessageHandler (env : Env) (files : Option (List FileData)) :
    List Message × List ApiCall :=
  match files with
  | none => ([], [])
  | some fs => if fs.length > 0 then importFiles env fs else ([], [])

/-- The `supersplat:auto-export` branch: runs `performExport({
includeThumbnail: false, includeCameraPose: false })`; a thrown error is
caught and posted as one `splat-editor-error` message. The handler never
touches the buttons. -/
def autoExportHandler (env : Env) (c : Controls) : HandlerOutcome :=
  let out := performExport env ⟨false, false⟩
  match out.result with
  | .ok _ => ⟨c, out.messages, out.calls⟩
  | .error e => ⟨c, out.messages ++ [.editorError e], out.calls⟩

/-- The `window.addEventListener('message', ...)` listener: dispatches on
`e.data?.type`. -/
def messageListener (env : Env) (c : Controls) : InboundMessage → HandlerOutcome
  | .importMsg files =>
    let (ms, cs) := importMessageHandler env files
    ⟨c, ms, cs⟩
  | .autoExport => autoExportHandler env c
  | .other => ⟨c, [], []⟩

/-- Classifiers for host-API calls, used to state trace properties. -/
def isPoseCall : ApiCall → Bool
  | .cameraGetPose => true
  | .cameraFov => true
  | _ => false

def isThumbCall : ApiCall → Bool
  | .renderOffscreen _ _ => true
  | _ => false

def isSerializeCall : ApiCall → Bool
  | .sceneSplats => true
  | .serializePlyCompressed => true
  | _ => false

def isSubmitMessage : Message → Bool
  | .submit _ => true
  | _ => false

def isImportErrorMessage : Message → Bool
  | .importError _ => true
  | _ => false

/-- A concrete environment in which every external collaborator succeeds:
the scene holds one splat named `model.ply`. -/
def successEnv : Env where
  getPoseResult := .ok (some ⟨[0, 0, 5], [0, 0, 0]⟩)
  cameraFovResult := .ok 60
  renderOffscreenResult := .ok (some [0, 0, 0, 255])
  ctx2dAvailable := true
  pngEncode := fun _ => some [137, 80, 78, 71]
  sceneSplatsResult := .ok (some [⟨some "model.ply"⟩])
  serializeResult := .ok ()
  memFsOutput := some [112, 108, 121]
  importResult := fun _ => .ok ()

/-- Like `successEnv` but `camera.getPose` returns null. -/
def poseFailEnv : Env :=
  { successEnv with getPoseResult := .ok none }

/-- Like `successEnv` but the scene's splat list is empty. -/
def emptySceneEnv : Env :=
  { successEnv with sceneSplatsResult := .ok (some []) }

/-- Like `successEnv` but `scene.splats` returns null. -/
def absentSceneEnv : Env :=
  { successEnv with sceneSplatsResult := .ok none }

/-- Like `successEnv` but the first splat has a null filename. -/
def noFilenameEnv : Env :=
  { successEnv with sceneSplatsResult := .ok (some [⟨none⟩]) }

/-- Like `successEnv` but importing the file named `b.ply` throws. -/
def importSecondFailsEnv : Env :=
  { successEnv with
    importResult := fun f =>
      if f.filename = "b.ply" then .error "import failed" else .ok () }

/-- The three file descriptors of the `supersplat:import` scenario. -/
def fileA : FileData := ⟨"a.ply"⟩

def fileB : FileData := ⟨"b.ply"⟩

def fileC : FileData := ⟨"c.ply"⟩

/-! ## Helper lemmas about call traces -/

theorem getCameraPose_calls_pose (env : Env) :
    ((getCameraPose env).2).all isPoseCall = true := by
  unfold getCameraPose
  cases env.getPoseResult with
  | error e => simp [isPoseCall]
  | ok op =>
    cases op with
    | none => simp [isPoseCall]
    | some p =>
      cases env.cameraFovResult with
      | error e => simp [isPoseCall]
      | ok f => simp [isPoseCall]

theorem poseStep_calls_pose (env : Env) (b : Bool) :
    ((poseStep env b).2).all isPoseCall = true := by
  unfold poseStep
  cases b with
  | false => simp
  | true =>
    have h := getCameraPose_calls_pose env
    rcases hg : getCameraPose env with ⟨r, calls⟩
    rw [hg] at h
    cases r <;> simpa using h

theorem captureThumbnail_calls (env : Env) :
    (captureThumbnail env).2 = [.renderOffscreen 512 512] := by
  unfold captureThumbnail
  cases env.renderOffscreenResult with
  | error e => rfl
  | ok op =>
    cases op with
    | none => rfl
    | some pixels =>
      by_cases hc : env.ctx2dAvailable <;> simp [hc]

theorem thumbStep_calls_thumb (env : Env) (b : Bool) :
    ((thumbStep env b).2).all isThumbCall = true := by
  unfold thumbStep
  cases b with
  | false => simp
  | true =>
    have h := captureThumbnail_calls env
    rcases hg : captureThumbnail env with ⟨r, calls⟩
    rw [hg] at h
    simp only at h
    subst h
    cases r <;> simp [isThumbCall]

theorem exportPly_calls_serialize (env : Env) :
    ((exportPly env).2).all isSerializeCall = true := by
  unfold exportPly
  cases env.sceneSplatsResult with
  | error e => simp [isSerializeCall]
  | ok op =>
    cases op with
    | none => simp [isSerializeCall]
    | some splats =>
      cases splats with
      | nil => simp [isSerializeCall]
      | cons first rest =>
        cases env.serializeResult with
        | error e => simp [isSerializeCall]
        | ok u =>
          cases env.memFsOutput with
          | none => simp [isSerializeCall]
          | some bytes => simp [isSerializeCall]

theorem all_pose_not_thumb_serialize {l : List ApiCall}
    (h : l.all isPoseCall = true) :
    l.any isThumbCall = false ∧ l.any isSerializeCall = false := by
  simp only [List.all_eq_true] at h
  constructor <;>
    · simp only [List.any_eq_false]
      intro x hx
      have hp := h x hx
      cases x <;> simp_all [isPoseCall, isThumbCall, isSerializeCall]

theorem all_serialize_not_pose_thumb {l : List ApiCall}
    (h : l.all isSerializeCall = true) :
    l.any (fun k => isPoseCall k || isThumbCall k) = false := by
  simp only [List.all_eq_true] at h
  simp only [List.any_eq_false]
  intro x hx
  have hp := h x hx
  cases x <;> simp_all [isPoseCall, isThumbCall, isSerializeCall]

/-! ## Helper lemmas about filename derivation -/

theorem containsCompressedPly_append (s : String) :
    containsCompressedPly (s ++ ".compressed.ply") = true := by
  unfold containsCompressedPly
  apply decide_eq_true
  have h : (s ++ ".compressed.ply").toList = s.toList ++ ".compressed.ply".toList := by
    simp [String.toList, String.data_append]
  rw [h]
  exact (List.suffix_append s.toList _).isInfix

theorem deriveFilename_idempotent (s : String) :
    deriveFilename (deriveFilename s) = deriveFilename s := by
  unfold deriveFilename
  by_cases h1 : containsCompressedPly s = true
  · simp [h1]
  · by_cases h2 : endsWithPlyCI s = true
    · simp only [Bool.not_eq_true] at h1
      simp [h1, h2, containsCompressedPly_append]
    · simp only [Bool.not_eq_true] at h1 h2
      simp [h1, h2]

/-! ## Helper lemmas about `exportPly` and `performExport` -/

theorem exportPly_none_of_no_splats (env : Env)
    (h : env.sceneSplatsResult = .ok none ∨ env.sceneSplatsResult = .ok (some [])) :
    (exportPly env).1 = none := by
  unfold exportPly
  rcases h with h | h <;> rw [h]

theorem performExport_error_of_ply_none (env : Env) (options : ExportOptions)
    (h : (exportPly env).1 = none) :
    (∃ e, (performExport env options).result = Except.error e) ∧
    (performExport env options).messages = [] := by
  unfold performExport
  rcases hp : poseStep env options.includeCameraPose with ⟨pr, pc⟩
  cases pr with
  | error e => exact ⟨⟨e, rfl⟩, rfl⟩
  | ok cameraPose =>
    rcases ht : thumbStep env options.includeThumbnail with ⟨tr, tc⟩
    cases tr with
    | error e => exact ⟨⟨e, rfl⟩, rfl⟩
    | ok thumbnail =>
      rcases hx : exportPly env with ⟨xr, xc⟩
      rw [hx] at h
      simp only at h
      subst h
      exact ⟨⟨"Failed to export PLY", rfl⟩, rfl⟩

theorem performExport_submit_payload (env : Env) (options : ExportOptions)
    (p : SubmitPayload)
    (h : Message.submit p ∈ (performExport env options).messages) :
    ∃ r, (exportPly env).1 = some r ∧ p.filename = r.filename ∧ p.plyFile = r.data := by
  unfold performExport at h
  rcases hp : poseStep env options.includeCameraPose with ⟨pr, pc⟩
  rw [hp] at h
  cases pr with
  | error e => simp at h
  | ok cameraPose =>
    rcases ht : thumbStep env options.includeThumbnail with ⟨tr, tc⟩
    rw [ht] at h
    cases tr with
    | error e => simp at h
    | ok thumbnail =>
      rcases hx : exportPly env with ⟨xr, xc⟩
      rw [hx] at h
      cases xr with
      | none => simp at h
      | some r =>
        simp only [List.mem_singleton, Message.submit.injEq] at h
        subst h
        exact ⟨r, rfl, rfl, rfl⟩

theorem performExport_messages_empty_of_error (env : Env)
    (options : ExportOptions) (e : String)
    (h : (performExport env options).result = .error e) :
    (performExport env options).messages = [] := by
  unfold performExport at h ⊢
  rcases hp : poseStep env options.includeCameraPose with ⟨pr, pc⟩
  cases pr with
  | error e1 => rfl
  | ok cameraPose =>
    rcases ht : thumbStep env options.includeThumbnail with ⟨tr, tc⟩
    cases tr with
    | error e1 => rfl
    | ok thumbnail =>
      rcases hx : exportPly env with ⟨xr, xc⟩
      cases xr with
      | none => rfl
      | some r =>
        rw [hp, ht, hx] at h
        simp at h

theorem performExport_calls_decompose (env : Env) (options : ExportOptions) :
    ∃ a b c,
      (performExport env options).calls = a ++ b ++ c ∧
      a.all isPoseCall = true ∧ b.all isThumbCall = true ∧
      c.all isSerializeCall = true := by
  have hpc := poseStep_calls_pose env options.includeCameraPose
  have htc := thumbStep_calls_thumb env options.includeThumbnail
  have hxc := exportPly_calls_serialize env
  unfold performExport
  rcases hp : poseStep env options.includeCameraPose with ⟨pr, pc⟩
  rw [hp] at hpc
  simp only at hpc
  cases pr with
  | error e => exact ⟨pc, [], [], by simp, hpc, rfl, rfl⟩
  | ok cameraPose =>
    rcases ht : thumbStep env options.includeThumbnail with ⟨tr, tc⟩
    rw [ht] at htc
    simp only at htc
    cases tr with
    | error e => exact ⟨pc, tc, [], by simp, hpc, htc, rfl⟩
    | ok thumbnail =>
      rcases hx : exportPly env with ⟨xr, xc⟩
      rw [hx] at hxc
      simp only at hxc
      cases xr with
      | none => exact ⟨pc, tc, xc, rfl, hpc, htc, hxc⟩
      | some r => exact ⟨pc, tc, xc, rfl, hpc, htc, hxc⟩

theorem importFiles_calls (env : Env) (fs : List FileData) :
    (importFiles env fs).2 = fs.map ApiCall.importFile := by
  induction fs with
  | nil => rfl
  | cons f rest ih =>
    unfold importFiles
    rcases hr : importFiles env rest with ⟨ms, cs⟩
    rw [hr] at ih
    simp only at ih
    cases henv : env.importResult f <;> simp [henv, ih]

/-! ## The claims -/

/-- C2: if the scene holds zero splat items (the splats list is absent or
empty), every `performExport` call fails with a thrown error and posts no
`splat-editor-submit` message. -/
theorem C2_export_fails_without_splats (env : Env) (options : ExportOptions)
    (h : env.sceneSplatsResult = .ok none ∨
         env.sceneSplatsResult = .ok (some [])) :
    (∃ e, (performExport env options).result = Except.error e) ∧
    (performExport env options).messages.any isSubmitMessage = false := by
  have hply := exportPly_none_of_no_splats env h
  have hmain := performExport_error_of_ply_none env options hply
  refine ⟨hmain.1, ?_⟩
  rw [hmain.2]
  rfl

theorem C2_export_fails_without_splats_witness :
    ((∃ e, (performExport emptySceneEnv ⟨true, true⟩).result = Except.error e) ∧
     (performExport emptySceneEnv ⟨true, true⟩).messages.any isSubmitMessage = false) ∧
    ((∃ e, (performExport absentSceneEnv ⟨false, false⟩).result = Except.error e) ∧
     (performExport absentSceneEnv ⟨false, false⟩).messages.any isSubmitMessage = false) :=
  ⟨C2_export_fails_without_splats emptySceneEnv ⟨true, true⟩ (Or.inr rfl),
   C2_export_fails_without_splats absentSceneEnv ⟨false, false⟩ (Or.inl rfl)⟩

/-- C5: filename derivation maps `model.ply` to `model.compressed.ply`,
leaves `model.compressed.ply` unchanged, and is idempotent on every
string. -/
theorem C5_filename_derivation :
    deriveFilename "model.ply" = "model.compressed.ply" ∧
    deriveFilename "model.compressed.ply" = "model.compressed.ply" ∧
    ∀ s, deriveFilename (deriveFilename s) = deriveFilename s :=
  ⟨by decide, by decide, deriveFilename_idempotent⟩

/-- C6: the embedding detector returns true whenever `window.self` differs
from `window.top`, and returns true (instead of propagating) when the
access to `window.top` throws; as a pure function of the window state it
has no side effects. -/
theorem C6_iframe_detector :
    (∀ w top, w.topAccess = Except.ok top → w.selfRef ≠ top →
      isInIframe w = true) ∧
    (∀ w e, w.topAccess = Except.error e → isInIframe w = true) := by
  constructor
  · intro w top htop hne
    unfold isInIframe
    rw [htop]
    simpa using hne
  · intro w e htop
    unfold isInIframe
    rw [htop]

theorem C6_iframe_detector_witness :
    isInIframe ⟨1, Except.ok 2⟩ = true ∧
    isInIframe ⟨1, Except.error ()⟩ = true :=
  ⟨C6_iframe_detector.1 ⟨1, Except.ok 2⟩ 2 rfl (by decide),
   C6_iframe_detector.2 ⟨1, Except.error ()⟩ () rfl⟩

/-- C10: a `supersplat:import` message whose `files` field is absent or an
empty list triggers no `import` invocation and posts no message: the
handler leaves everything untouched. -/
theorem C10_empty_import_silent (env : Env) (c : Controls)
    (files : Option (List FileData))
    (h : files = none ∨ files = some []) :
    messageListener env c (.importMsg files) = ⟨c, [], []⟩ := by
  rcases h with h | h <;> subst h <;> rfl

theorem C10_empty_import_silent_witness :
    messageListener successEnv initialControls (.importMsg none) =
      ⟨initialControls, [], []⟩ ∧
    messageListener successEnv initialControls (.importMsg (some [])) =
      ⟨initialControls, [], []⟩ :=
  ⟨C10_empty_import_silent successEnv initialControls none (Or.inl rfl),
   C10_empty_import_silent successEnv initialControls (some []) (Or.inr rfl)⟩

theorem performExport_skip_both (env : Env) :
    performExport env ⟨false, false⟩ =
      match exportPly env with
      | (none, plyCalls) => ⟨.error "Failed to export PLY", [], plyCalls⟩
      | (some r, plyCalls) =>
        ⟨.ok (), [Message.submit ⟨none, r.data, r.filename, none⟩], plyCalls⟩ := by
  unfold performExport
  rcases hx : exportPly env with ⟨xr, xc⟩
  cases xr <;> rfl

theorem importMessageHandler_calls (env : Env) (fs : List FileData) :
    (importMessageHandler env (some fs)).2 = fs.map ApiCall.importFile := by
  cases fs with
  | nil => rfl
  | cons f rest =>
    have h : importMessageHandler env (some (f :: rest)) =
        importFiles env (f :: rest) := by
      simp [importMessageHandler]
    rw [h]
    exact importFiles_calls env (f :: rest)

theorem messageListener_import_calls (env : Env) (c : Controls)
    (fs : List FileData) :
    (messageListener env c (.importMsg (some fs))).calls =
      fs.map ApiCall.importFile := by
  have h2 := importMessageHandler_calls env fs
  rcases hm : importMessageHandler env (some fs) with ⟨ms, cs⟩
  rw [hm] at h2
  simp only at h2
  subst h2
  simp [messageListener, hm]

theorem exportPly_some_filename (env : Env) (first : Splat)
    (rest : List Splat) (r : PlyResult)
    (hs : env.sceneSplatsResult = .ok (some (first :: rest)))
    (hr : (exportPly env).1 = some r) :
    r.filename = deriveFilename (jsOrString first.filename "edited.ply") := by
  unfold exportPly at hr
  rw [hs] at hr
  rcases hser : env.serializeResult with e | u
  · rw [hser] at hr
    simp at hr
  · rw [hser] at hr
    rcases hmem : env.memFsOutput with _ | bytes
    · rw [hmem] at hr
      simp at hr
    · rw [hmem] at hr
      simp only [Option.some.injEq] at hr
      subst hr
      rfl

/-- C1 counterexample: in an environment where every collaborator
succeeds, the Submit-triggered export completes successfully, yet the
handler leaves the submit button disabled and labelled `Processing...`;
the terminal state is not the enabled idle state the claim asserts. -/
theorem C1_submit_idle_counterexample :
    (performExport successEnv ⟨true, true⟩).result = Except.ok () ∧
    (submitClick successEnv initialControls).controls.submit.disabled = true ∧
    (submitClick successEnv initialControls).controls.submit.label =
      "Processing..." :=
  ⟨rfl, rfl, rfl⟩

/-- C1 (amended): the Submit click handler disables both buttons and
relabels the submit button on entry; when the export fails it restores
both buttons to the enabled idle state; when the export succeeds the
buttons keep the disabled processing state set on entry, so the terminal
state is idle only on failure. -/
theorem C1_submit_button_lifecycle (env : Env) (c : Controls) :
    (submitEntry c).submit.disabled = true ∧
    (submitEntry c).cancel.disabled = true ∧
    (submitEntry c).submit.label = "Processing..." ∧
    (∀ e, (performExport env ⟨true, true⟩).result = Except.error e →
      (submitClick env c).controls =
        ⟨⟨false, "Submit"⟩, ⟨false, c.cancel.label⟩⟩) ∧
    (∀ u, (performExport env ⟨true, true⟩).result = Except.ok u →
      (submitClick env c).controls = submitEntry c) := by
  refine ⟨rfl, rfl, rfl, ?_, ?_⟩
  · intro e he
    simp only [submitClick]
    rw [he]
    rfl
  · intro u hu
    simp only [submitClick]
    rw [hu]

theorem C1_submit_button_lifecycle_witness :
    (submitClick poseFailEnv initialControls).controls =
      ⟨⟨false, "Submit"⟩, ⟨false, "Cancel"⟩⟩ ∧
    (submitClick successEnv initialControls).controls =
      submitEntry initialControls :=
  ⟨(C1_submit_button_lifecycle poseFailEnv initialControls).2.2.2.1
      "Failed to capture camera pose" rfl,
   (C1_submit_button_lifecycle successEnv initialControls).2.2.2.2 () rfl⟩

/-- C3: with `{includeThumbnail: false, includeCameraPose: false}`,
`performExport` makes no camera-pose and no offscreen-render API calls,
and whenever the PLY serialization succeeds it posts exactly one submit
message whose `thumbnail` and `cameraPose` are null. -/
theorem C3_export_skips_pose_and_render (env : Env) :
    (performExport env ⟨false, false⟩).calls.any
      (fun k => isPoseCall k || isThumbCall k) = false ∧
    (∀ r, (exportPly env).1 = some r →
      (performExport env ⟨false, false⟩).messages =
        [Message.submit ⟨none, r.data, r.filename, none⟩]) := by
  have hpe := performExport_skip_both env
  have hxc := exportPly_calls_serialize env
  rcases hx : exportPly env with ⟨xr, xc⟩
  rw [hx] at hpe hxc
  simp only at hpe hxc
  cases xr with
  | none =>
    rw [hpe]
    refine ⟨all_serialize_not_pose_thumb hxc, ?_⟩
    intro r hr
    simp at hr
  | some r0 =>
    rw [hpe]
    refine ⟨all_serialize_not_pose_thumb hxc, ?_⟩
    intro r hr
    simp only [Option.some.injEq] at hr
    subst hr
    rfl

theorem C3_export_skips_pose_and_render_witness :
    (performExport successEnv ⟨false, false⟩).messages =
      [Message.submit ⟨none, [112, 108, 121], "model.compressed.ply", none⟩] :=
  (C3_export_skips_pose_and_render successEnv).2
    ⟨"model.compressed.ply", [112, 108, 121]⟩ rfl

/-- C4: a `supersplat:import` with three file descriptors where the second
fails posts exactly one `supersplat:import:error` message while the first
and third are still fed to the host's `import` pipeline; in general every
listed file reaches the pipeline regardless of other files' failures. -/
theorem C4_import_failure_is_isolated :
    ((messageListener importSecondFailsEnv initialControls
        (.importMsg (some [fileA, fileB, fileC]))).messages.countP
          isImportErrorMessage = 1) ∧
    ((messageListener importSecondFailsEnv initialControls
        (.importMsg (some [fileA, fileB, fileC]))).calls =
      [.importFile fileA, .importFile fileB, .importFile fileC]) ∧
    (∀ env c fs, (messageListener env c (.importMsg (some fs))).calls =
      fs.map ApiCall.importFile) :=
  ⟨by decide, by decide, messageListener_import_calls⟩

/-- C7: when the camera pose is requested but unavailable, the whole
export fails with a thrown error, posts nothing, and performs neither the
thumbnail render nor any serialization call; moreover every export's call
trace decomposes as pose-capture calls, then thumbnail-capture calls,
then serialization calls — strictly in that sequence. -/
theorem C7_pose_failure_aborts_and_steps_ordered :
    (∀ env (options : ExportOptions), options.includeCameraPose = true →
      (getCameraPose env).1 = none →
      (∃ e, (performExport env options).result = Except.error e) ∧
      (performExport env options).messages = [] ∧
      (performExport env options).calls.any isThumbCall = false ∧
      (performExport env options).calls.any isSerializeCall = false) ∧
    (∀ env options, ∃ a b c,
      (performExport env options).calls = a ++ b ++ c ∧
      a.all isPoseCall = true ∧ b.all isThumbCall = true ∧
      c.all isSerializeCall = true) := by
  refine ⟨?_, performExport_calls_decompose⟩
  intro env options hopt hpose
  have hps : poseStep env options.includeCameraPose =
      (.error "Failed to capture camera pose", (getCameraPose env).2) := by
    rw [hopt]
    unfold poseStep
    rcases hg : getCameraPose env with ⟨gr, gc⟩
    rw [hg] at hpose
    simp only at hpose
    subst hpose
    rfl
  have hpe : performExport env options =
      ⟨.error "Failed to capture camera pose", [], (getCameraPose env).2⟩ := by
    unfold performExport
    rw [hps]
  have hnts := all_pose_not_thumb_serialize (getCameraPose_calls_pose env)
  rw [hpe]
  exact ⟨⟨"Failed to capture camera pose", rfl⟩, rfl, hnts.1, hnts.2⟩

theorem C7_pose_failure_witness :
    (performExport poseFailEnv ⟨true, true⟩).messages = [] ∧
    (performExport poseFailEnv ⟨true, true⟩).calls.any isSerializeCall = false :=
  ⟨(C7_pose_failure_aborts_and_steps_ordered.1 poseFailEnv ⟨true, true⟩
      rfl rfl).2.1,
   (C7_pose_failure_aborts_and_steps_ordered.1 poseFailEnv ⟨true, true⟩
      rfl rfl).2.2.2⟩

/-- C8: the `supersplat:auto-export` handler leaves the buttons untouched,
performs no camera-pose and no render calls, any submit message it posts
carries null thumbnail and null camera pose, and a failing export is
reported as exactly one `splat-editor-error` message. -/
theorem C8_auto_export_handler (env : Env) (c : Controls) :
    (autoExportHandler env c).controls = c ∧
    (autoExportHandler env c).calls.any
      (fun k => isPoseCall k || isThumbCall k) = false ∧
    (∀ p, Message.submit p ∈ (autoExportHandler env c).messages →
      p.thumbnail = none ∧ p.cameraPose = none) ∧
    (∀ e, (performExport env ⟨false, false⟩).result = Except.error e →
      (autoExportHandler env c).messages = [Message.editorError e]) := by
  have hpe := performExport_skip_both env
  have hxc := exportPly_calls_serialize env
  rcases hx : exportPly env with ⟨xr, xc⟩
  rw [hx] at hpe hxc
  simp only at hpe hxc
  cases xr with
  | none =>
    have hpe2 : performExport env ⟨false, false⟩ =
        ⟨Except.error "Failed to export PLY", [], xc⟩ := hpe.trans rfl
    have hh : autoExportHandler env c =
        ⟨c, [Message.editorError "Failed to export PLY"], xc⟩ := by
      unfold autoExportHandler
      rw [hpe2]
      rfl
    rw [hh, hpe2]
    refine ⟨rfl, all_serialize_not_pose_thumb hxc, ?_, ?_⟩
    · intro p hp
      simp at hp
    · intro e he
      simp only [Except.error.injEq] at he
      rw [he]
  | some r =>
    have hpe2 : performExport env ⟨false, false⟩ =
        ⟨Except.ok (), [Message.submit ⟨none, r.data, r.filename, none⟩],
         xc⟩ := hpe.trans rfl
    have hh : autoExportHandler env c =
        ⟨c, [Message.submit ⟨none, r.data, r.filename, none⟩], xc⟩ := by
      unfold autoExportHandler
      rw [hpe2]
    rw [hh, hpe2]
    refine ⟨rfl, all_serialize_not_pose_thumb hxc, ?_, ?_⟩
    · intro p hp
      simp only [List.mem_singleton, Message.submit.injEq] at hp
      subst hp
      exact ⟨rfl, rfl⟩
    · intro e he
      simp at he

theorem C8_auto_export_handler_witness :
    (autoExportHandler successEnv initialControls).controls =
      initialControls ∧
    ((⟨none, [112, 108, 121], "model.compressed.ply", none⟩ :
        SubmitPayload).thumbnail = none ∧
     (⟨none, [112, 108, 121], "model.compressed.ply", none⟩ :
        SubmitPayload).cameraPose = none) ∧
    (autoExportHandler emptySceneEnv initialControls).messages =
      [Message.editorError "Failed to export PLY"] :=
  ⟨(C8_auto_export_handler successEnv initialControls).1,
   (C8_auto_export_handler successEnv initialControls).2.2.1
     ⟨none, [112, 108, 121], "model.compressed.ply", none⟩ (by decide),
   (C8_auto_export_handler emptySceneEnv initialControls).2.2.2
     "Failed to export PLY" rfl⟩

/-- C9: when the first splat's stored filename is null/undefined or the
empty string, every `splat-editor-submit` message posted by
`performExport` carries the filename `edited.compressed.ply` (the default
`edited.ply` with the extension normalized). -/
theorem C9_default_filename_normalized (env : Env) (options : ExportOptions)
    (first : Splat) (rest : List Splat) (p : SubmitPayload)
    (hs : env.sceneSplatsResult = .ok (some (first :: rest)))
    (hf : first.filename = none ∨ first.filename = some "")
    (hp : Message.submit p ∈ (performExport env options).messages) :
    p.filename = "edited.compressed.ply" := by
  obtain ⟨r, hr, hpf, _⟩ := performExport_submit_payload env options p hp
  have hfn := exportPly_some_filename env first rest r hs hr
  have hjs : jsOrString first.filename "edited.ply" = "edited.ply" := by
    rcases hf with h | h <;> rw [h] <;> rfl
  rw [hpf, hfn, hjs]
  decide

theorem C9_default_filename_normalized_witness :
    (⟨some [137, 80, 78, 71], [112, 108, 121], "edited.compressed.ply",
      some ⟨[0, 0, 5], [0, 0, 0], 60⟩⟩ : SubmitPayload).filename =
      "edited.compressed.ply" :=
  C9_default_filename_normalized noFilenameEnv ⟨true, true⟩ ⟨none⟩ []
    ⟨some [137, 80, 78, 71], [112, 108, 121], "edited.compressed.ply",
      some ⟨[0, 0, 5], [0, 0, 0], 60⟩⟩
    rfl (Or.inl rfl) (by decide)
